import Mathlib

/-!
Verification of the zombie-apocalypse ODE simulator (`zombie_apocalypse.py`).

The Python class `Zombie_apocalypse` holds scenario parameters and initial
conditions, exposes the derivative function `diff_eq_solver` of a system of
three first-order ODEs (Munz et al. 2009), and drives `scipy.integrate.odeint`
over a 1000-point timeline.

Embedding choices:
* Python numbers are embedded as rationals (`ℚ`); every constant in the source
  is a decimal literal, represented exactly.
* An instance after `__init__` is the structure `Zombie_apocalypse`.  The
  attributes `f0`, `f1`, `f2` do not exist until `diff_eq_solver` first runs,
  so they are `Option ℚ`, `none` after construction.
* Python optional parameters with a default (`S0 = 1000`, `Zc = None`, ...)
  are embedded as `Option ℚ` arguments of the constructor `init`; passing
  `none` means omitting the argument.
* `diff_eq_solver` mutates `self` (it assigns `self.f0`, `self.f1`,
  `self.f2`), so its embedding returns the produced list together with the
  updated instance.
* `np.linspace(0, nr_sim_days, 1000)` is embedded as `linspace`, the exact
  arithmetic of numpy's endpoint-inclusive linspace.
* The integrator (`odeint`) is an external library.  Its contract (spec §4.2)
  is to sample the exact solution of the initial value problem at the
  timeline points; exact solutions are embedded as real-valued functions via
  `HasDerivAt` (`IsSolution`), and sampling as `sample`.
-/

/-- Embedding of an instance of the Python class `Zombie_apocalypse` after
`__init__`, with the attributes `f0`, `f1`, `f2` that `diff_eq_solver`
creates later held as `Option ℚ` (`none` = attribute not yet set). -/
structure Zombie_apocalypse where
  S0 : ℚ
  Z0 : ℚ
  R0 : ℚ
  P : ℚ
  y0 : List ℚ
  scenario_title : String
  timeline : List ℚ
  nr_sim_days : ℚ
  f0 : Option ℚ
  f1 : Option ℚ
  f2 : Option ℚ

namespace Zombie_apocalypse

/-- Class constant: natural death probability `d = 0.0077`. -/
def d : ℚ := 0.0077

/-- Class constant: infection probability `B = 0.0095`. -/
def B : ℚ := 0.0095

/-- Class constant: resurrection probability `G = 0.0005`. -/
def G : ℚ := 0.0005

/-- Class constant: zombie kill probability `A = 0.005`. -/
def A : ℚ := 0.005

/-- Embedding of `np.linspace(start, stop, num)` (endpoint inclusive):
`num` samples, the i-th being `start + (stop - start) * i / (num - 1)`. -/
def linspace (start stop : ℚ) (num : ℕ) : List ℚ :=
  (List.range num).map
    (fun i : ℕ => start + (stop - start) * (i : ℚ) / ((num : ℚ) - 1))

/-- Embedding of `Zombie_apocalypse.__init__`.  Each Python parameter with a
default is an `Option ℚ`; `none` means the caller omitted it, so the Python
default applies (`S0 = 1000`, `Zc = None`, `Rc = None`, `P = None`,
`nr_sim_days = 10`). -/
def init (scenario_title : String) (S0 Zc Rc P nr_sim_days : Option ℚ) :
    Zombie_apocalypse :=
  let S0v := S0.getD 1000
  let Z0v := match Zc with
    | none => 0
    | some zc => zc * S0v
  let R0v := match Rc with
    | none => 0
    | some rc => rc * S0v
  let Pv := match P with
    | none => 0
    | some p => p
  let ndsv := nr_sim_days.getD 10
  { S0 := S0v
    Z0 := Z0v
    R0 := R0v
    P := Pv
    y0 := [S0v, Z0v, R0v]
    scenario_title := scenario_title
    timeline := linspace 0 ndsv 1000
    nr_sim_days := ndsv
    f0 := none
    f1 := none
    f2 := none }

/-- Embedding of `diff_eq_solver(self, y, t)`.  The state `y` is the triple
`(S, Z, R)`; the result is the returned list `[f0, f1, f2]` together with the
updated instance (the method assigns `self.f0`, `self.f1`, `self.f2`). -/
def diff_eq_solver (self : Zombie_apocalypse) (y : ℚ × ℚ × ℚ) (t : ℚ) :
    List ℚ × Zombie_apocalypse :=
  let Si := y.1
  let Zi := y.2.1
  let Ri := y.2.2
  let f0v := self.P - B * Si * Zi - d * Si
  let f1v := B * Si * Zi + G * Ri - A * Si * Zi
  let f2v := d * Si + A * Si * Zi - G * Ri
  ([f0v, f1v, f2v], { self with f0 := some f0v, f1 := some f1v, f2 := some f2v })

end Zombie_apocalypse

/-- Scenario 1 of the `__main__` block: all optional parameters omitted. -/
def scenario_1 : Zombie_apocalypse :=
  Zombie_apocalypse.init
    "Zombie Apocalypse - No initial population deceased - no new births"
    none none none none none

/-- The right-hand side of the ODE system over the reals, with the rate
constants and the birth rate as parameters: the exact formulas of
`diff_eq_solver`. -/
def rhs (dc Bc Gc Ac Pc S Z R : ℝ) : ℝ × ℝ × ℝ :=
  (Pc - Bc * S * Z - dc * S,
   Bc * S * Z + Gc * R - Ac * S * Z,
   dc * S + Ac * S * Z - Gc * R)

/-- `IsSolution dc Bc Gc Ac Pc S Z R`: the real functions `S`, `Z`, `R` form
an exact solution of the ODE system `dy/dt = f(y)` whose right-hand side is
`rhs` (the system integrated by `scenario_builder`). -/
def IsSolution (dc Bc Gc Ac Pc : ℝ) (S Z R : ℝ → ℝ) : Prop :=
  ∀ t : ℝ,
    HasDerivAt S ((rhs dc Bc Gc Ac Pc (S t) (Z t) (R t)).1) t ∧
    HasDerivAt Z ((rhs dc Bc Gc Ac Pc (S t) (Z t) (R t)).2.1) t ∧
    HasDerivAt R ((rhs dc Bc Gc Ac Pc (S t) (Z t) (R t)).2.2) t

/-- Sampling model of the integrator (spec §4.2): `odeint` returns the value
of the exact solution `y` of the initial value problem at each timeline
point; `scenario_builder`'s trajectory is this list of samples. -/
def sample (y : ℝ → ℝ × ℝ × ℝ) (timeline : List ℚ) : List (ℝ × ℝ × ℝ) :=
  timeline.map (fun t : ℚ => y ((t : ℚ) : ℝ))

/-- C1: for every state vector `(S, Z, R)` and every time `t`, the list
returned by `diff_eq_solver` is exactly
`(P - B*S*Z - d*S, B*S*Z + G*R - A*S*Z, d*S + A*S*Z - G*R)`,
where `P` is the scenario's birth rate and `d`, `B`, `G`, `A` the fixed rate
constants. -/
theorem C1_diff_eq_solver_formula (za : Zombie_apocalypse) (S Z R t : ℚ) :
    (za.diff_eq_solver (S, Z, R) t).1 =
      [za.P - Zombie_apocalypse.B * S * Z - Zombie_apocalypse.d * S,
       Zombie_apocalypse.B * S * Z + Zombie_apocalypse.G * R
         - Zombie_apocalypse.A * S * Z,
       Zombie_apocalypse.d * S + Zombie_apocalypse.A * S * Z
         - Zombie_apocalypse.G * R] := rfl

/-- C2 counterexample: calling `diff_eq_solver` does not leave the instance's
fields unchanged — on scenario 1 at state `(1, 1, 1)`, time `0`, the updated
instance differs from the original (its `f0` attribute is now set). -/
theorem C2_counterexample_instance_mutated :
    (scenario_1.diff_eq_solver (1, 1, 1) 0).2 ≠ scenario_1 := by
  intro h
  have h0 := congrArg Zombie_apocalypse.f0 h
  simp [Zombie_apocalypse.diff_eq_solver, scenario_1, Zombie_apocalypse.init] at h0

/-- C2 (amended): the list returned by `diff_eq_solver` is a pure function of
the state `y`, the birth rate `P` and the fixed rate constants, and the only
change to the instance is that the scratch attributes `f0`, `f1`, `f2` are
(re)assigned to the three derivative components; every field set by the
constructor is unchanged. -/
theorem C2_return_pure_and_only_f_fields_written
    (za : Zombie_apocalypse) (y : ℚ × ℚ × ℚ) (t : ℚ) :
    (za.diff_eq_solver y t).1 =
      [za.P - Zombie_apocalypse.B * y.1 * y.2.1 - Zombie_apocalypse.d * y.1,
       Zombie_apocalypse.B * y.1 * y.2.1 + Zombie_apocalypse.G * y.2.2
         - Zombie_apocalypse.A * y.1 * y.2.1,
       Zombie_apocalypse.d * y.1 + Zombie_apocalypse.A * y.1 * y.2.1
         - Zombie_apocalypse.G * y.2.2] ∧
    (za.diff_eq_solver y t).2 =
      { za with
        f0 := some (za.P - Zombie_apocalypse.B * y.1 * y.2.1
          - Zombie_apocalypse.d * y.1)
        f1 := some (Zombie_apocalypse.B * y.1 * y.2.1
          + Zombie_apocalypse.G * y.2.2 - Zombie_apocalypse.A * y.1 * y.2.1)
        f2 := some (Zombie_apocalypse.d * y.1
          + Zombie_apocalypse.A * y.1 * y.2.1 - Zombie_apocalypse.G * y.2.2) } :=
  ⟨rfl, rfl⟩

/-- C3: the sum of the three components returned by `diff_eq_solver` equals
the scenario's birth rate `P`; in particular, when `P` is omitted (so
`P = 0`), the sum is exactly `0`; and for every exact solution of the system
with `P = 0` (any rate constants) the total population `S + Z + R` is
conserved. -/
theorem C3_component_sum_eq_P (za : Zombie_apocalypse)
    (title : String) (s0 zc rc nds : Option ℚ) (S Z R t : ℚ) :
    ((za.diff_eq_solver (S, Z, R) t).1).sum = za.P ∧
    (((Zombie_apocalypse.init title s0 zc rc none nds).diff_eq_solver
        (S, Z, R) t).1).sum = 0 ∧
    ∀ dc Bc Gc Ac : ℝ, ∀ Sf Zf Rf : ℝ → ℝ,
      IsSolution dc Bc Gc Ac 0 Sf Zf Rf →
      ∀ u : ℝ, Sf u + Zf u + Rf u = Sf 0 + Zf 0 + Rf 0 := by
  refine ⟨?_, ?_, ?_⟩
  · show za.P - Zombie_apocalypse.B * S * Z - Zombie_apocalypse.d * S
        + (Zombie_apocalypse.B * S * Z + Zombie_apocalypse.G * R
            - Zombie_apocalypse.A * S * Z
          + (Zombie_apocalypse.d * S + Zombie_apocalypse.A * S * Z
              - Zombie_apocalypse.G * R + 0)) = za.P
    ring
  · show (0 : ℚ) - Zombie_apocalypse.B * S * Z - Zombie_apocalypse.d * S
        + (Zombie_apocalypse.B * S * Z + Zombie_apocalypse.G * R
            - Zombie_apocalypse.A * S * Z
          + (Zombie_apocalypse.d * S + Zombie_apocalypse.A * S * Z
              - Zombie_apocalypse.G * R + 0)) = 0
    ring
  · intro dc Bc Gc Ac Sf Zf Rf hsol u
    have hsum : ∀ v : ℝ, HasDerivAt (fun w => Sf w + Zf w + Rf w) 0 v := by
      intro v
      have hadd := ((hsol v).1.add (hsol v).2.1).add (hsol v).2.2
      convert hadd using 1
      simp only [rhs]
      ring
    exact is_const_of_deriv_eq_zero (fun v => (hsum v).differentiableAt)
      (fun v => (hsum v).deriv) u 0

/-- C3 witness: the theorem's conservation conjunct applied to the constant
solution `Sf = 1`, `Zf = 2`, `Rf = 3` of the system with all rate constants
`0` and `P = 0`, at `u = 1`. -/
theorem C3_component_sum_witness :
    IsSolution 0 0 0 0 0 (fun _ => 1) (fun _ => 2) (fun _ => 3) ∧
    ((fun _ : ℝ => (1 : ℝ)) 1 + (fun _ : ℝ => (2 : ℝ)) 1
        + (fun _ : ℝ => (3 : ℝ)) 1 =
      (fun _ : ℝ => (1 : ℝ)) 0 + (fun _ : ℝ => (2 : ℝ)) 0
        + (fun _ : ℝ => (3 : ℝ)) 0) := by
  have hsol : IsSolution 0 0 0 0 0 (fun _ => (1 : ℝ)) (fun _ => (2 : ℝ))
      (fun _ => (3 : ℝ)) := by
    intro t
    refine ⟨?_, ?_, ?_⟩
    · convert hasDerivAt_const t (1 : ℝ) using 1
      simp [rhs]
    · convert hasDerivAt_const t (2 : ℝ) using 1
      simp [rhs]
    · convert hasDerivAt_const t (3 : ℝ) using 1
      simp [rhs]
  exact ⟨hsol,
    (C3_component_sum_eq_P scenario_1 "w" none none none none 0 0 0 0).2.2
      0 0 0 0 _ _ _ hsol 1⟩

/-- C4: the constructor derives `Z0 = Zc * S0` when `Zc` is supplied and `0`
when absent, `R0 = Rc * S0` when `Rc` is supplied and `0` when absent,
`P = 0` when absent, `S0 = 1000` and `nr_sim_days = 10` when absent, and
`y0 = [S0, Z0, R0]`. -/
theorem C4_init_defaults_and_derived_state (title : String)
    (s0 zc rc p nds : Option ℚ) (zcv rcv : ℚ) :
    (Zombie_apocalypse.init title s0 (some zcv) rc p nds).Z0 =
      zcv * (Zombie_apocalypse.init title s0 (some zcv) rc p nds).S0 ∧
    (Zombie_apocalypse.init title s0 none rc p nds).Z0 = 0 ∧
    (Zombie_apocalypse.init title s0 zc (some rcv) p nds).R0 =
      rcv * (Zombie_apocalypse.init title s0 zc (some rcv) p nds).S0 ∧
    (Zombie_apocalypse.init title s0 zc none p nds).R0 = 0 ∧
    (Zombie_apocalypse.init title s0 zc rc none nds).P = 0 ∧
    (Zombie_apocalypse.init title none zc rc p nds).S0 = 1000 ∧
    (Zombie_apocalypse.init title s0 zc rc p none).nr_sim_days = 10 ∧
    (Zombie_apocalypse.init title s0 zc rc p nds).y0 =
      [(Zombie_apocalypse.init title s0 zc rc p nds).S0,
       (Zombie_apocalypse.init title s0 zc rc p nds).Z0,
       (Zombie_apocalypse.init title s0 zc rc p nds).R0] :=
  ⟨rfl, rfl, rfl, rfl, rfl, rfl, rfl, rfl⟩

/-- C10: passing the explicit value `0` for `Zc`, `Rc` or `P` yields exactly
the same instance (hence the same `Z0`, `R0`, `P`, `y0`) as omitting the
argument, for every `S0` and every other argument. -/
theorem C10_explicit_zero_equals_omitted (title : String)
    (s0 zc rc p nds : Option ℚ) :
    Zombie_apocalypse.init title s0 (some 0) rc p nds =
      Zombie_apocalypse.init title s0 none rc p nds ∧
    Zombie_apocalypse.init title s0 zc (some 0) p nds =
      Zombie_apocalypse.init title s0 zc none p nds ∧
    Zombie_apocalypse.init title s0 zc rc (some 0) nds =
      Zombie_apocalypse.init title s0 zc rc none nds := by
  refine ⟨?_, ?_, ?_⟩ <;>
    simp [Zombie_apocalypse.init, Zombie_apocalypse.mk.injEq]

/-- The `i`-th sample of `linspace` (for `i < num`) is
`start + (stop - start) * i / (num - 1)`. -/
lemma linspace_getD (start stop : ℚ) (num i : ℕ) (h : i < num) :
    (Zombie_apocalypse.linspace start stop num).getD i 0 =
      start + (stop - start) * (i : ℚ) / ((num : ℚ) - 1) := by
  rw [Zombie_apocalypse.linspace, List.getD, List.get?_eq_getElem?,
    List.getElem?_map, List.getElem?_range h]
  rfl

set_option maxRecDepth 8000 in
/-- The timeline built by the constructor is `linspace 0 nr_sim_days 1000`. -/
lemma init_timeline (title : String) (s0 zc rc p : Option ℚ) (nds : ℚ) :
    (Zombie_apocalypse.init title s0 zc rc p (some nds)).timeline =
      Zombie_apocalypse.linspace 0 nds 1000 := rfl

/-- C5: for every scenario, the timeline is a sequence of exactly 1000
samples, the first being `0`, the last being `nr_sim_days`, with constant
spacing `nr_sim_days / 999` between consecutive samples. -/
theorem C5_timeline_1000_evenly_spaced (title : String)
    (s0 zc rc p : Option ℚ) (nds : ℚ) :
    (Zombie_apocalypse.init title s0 zc rc p (some nds)).timeline.length = 1000 ∧
    (Zombie_apocalypse.init title s0 zc rc p (some nds)).timeline.getD 0 0 = 0 ∧
    (Zombie_apocalypse.init title s0 zc rc p (some nds)).timeline.getD 999 0 =
      nds ∧
    ∀ i : ℕ, i < 999 →
      (Zombie_apocalypse.init title s0 zc rc p (some nds)).timeline.getD (i + 1) 0
        - (Zombie_apocalypse.init title s0 zc rc p (some nds)).timeline.getD i 0
        = nds / 999 := by
  refine ⟨?_, ?_, ?_, ?_⟩
  · rw [init_timeline, Zombie_apocalypse.linspace, List.length_map,
      List.length_range]
  · rw [init_timeline, linspace_getD 0 nds 1000 0 (by norm_num)]
    norm_num
  · rw [init_timeline, linspace_getD 0 nds 1000 999 (by norm_num)]
    norm_num
  · intro i hi
    rw [init_timeline, linspace_getD 0 nds 1000 (i + 1) (by omega),
      linspace_getD 0 nds 1000 i (by omega)]
    push_cast
    ring

/-- C5 witness: for a concrete scenario (`nr_sim_days = 10`) the spacing
between the first two timeline samples is `10 / 999`. -/
theorem C5_timeline_witness :
    (0 : ℕ) < 999 ∧
    (Zombie_apocalypse.init "w" none none none none (some 10)).timeline.getD 1 0
      - (Zombie_apocalypse.init "w" none none none none
          (some 10)).timeline.getD 0 0 = 10 / 999 :=
  ⟨by norm_num,
   (C5_timeline_1000_evenly_spaced "w" none none none none 10).2.2.2 0
     (by norm_num)⟩

/-- C9: when `S0` is positive, `Zc` and `Rc` are each absent or a fraction in
`[0, 1]`, and `P` is absent or non-negative, the derived initial state
`(S0, Z0, R0)` has all three components non-negative. -/
theorem C9_initial_state_nonneg (title : String)
    (s0 zc rc p nds : Option ℚ)
    (hs : 0 < s0.getD 1000)
    (hzc : ∀ x, zc = some x → 0 ≤ x ∧ x ≤ 1)
    (hrc : ∀ x, rc = some x → 0 ≤ x ∧ x ≤ 1)
    (hp : ∀ x, p = some x → 0 ≤ x) :
    0 ≤ (Zombie_apocalypse.init title s0 zc rc p nds).S0 ∧
    0 ≤ (Zombie_apocalypse.init title s0 zc rc p nds).Z0 ∧
    0 ≤ (Zombie_apocalypse.init title s0 zc rc p nds).R0 := by
  refine ⟨le_of_lt hs, ?_, ?_⟩
  · cases zc with
    | none => exact le_refl 0
    | some x => exact mul_nonneg (hzc x rfl).1 (le_of_lt hs)
  · cases rc with
    | none => exact le_refl 0
    | some x => exact mul_nonneg (hrc x rfl).1 (le_of_lt hs)

/-- C9 witness: a concrete constructor call satisfying the preconditions
(`S0 = 1000`, `Zc = 1/2`, `Rc` absent, `P = 30`) yields a non-negative
initial state. -/
theorem C9_initial_state_nonneg_witness :
    0 ≤ (Zombie_apocalypse.init "w" (some 1000) (some (1/2)) none (some 30)
          (some 10)).S0 ∧
    0 ≤ (Zombie_apocalypse.init "w" (some 1000) (some (1/2)) none (some 30)
          (some 10)).Z0 ∧
    0 ≤ (Zombie_apocalypse.init "w" (some 1000) (some (1/2)) none (some 30)
          (some 10)).R0 :=
  C9_initial_state_nonneg "w" (some 1000) (some (1/2)) none (some 30) (some 10)
    (by norm_num)
    (fun x hx => by simp only [Option.some.injEq] at hx; subst hx; norm_num)
    (fun x hx => by simp at hx)
    (fun x hx => by simp only [Option.some.injEq] at hx; subst hx; norm_num)

/-- A real function whose derivative is `0` everywhere is constant. -/
lemma const_of_hasDerivAt_zero {f : ℝ → ℝ} (h : ∀ t : ℝ, HasDerivAt f 0 t)
    (t : ℝ) : f t = f 0 :=
  is_const_of_deriv_eq_zero (fun u => (h u).differentiableAt)
    (fun u => (h u).deriv) t 0

/-- C6: in the degenerate no-interaction case `P = d = G = A = B = 0` the
right-hand side of the system is the zero vector at every state, and every
exact solution of the system is constant: `S(t) = S0`, `Z(t) = Z0`,
`R(t) = R0` for all `t`. -/
theorem C6_no_interaction_constant_trajectory (S Z R : ℝ → ℝ) (x y z : ℝ)
    (h : IsSolution 0 0 0 0 0 S Z R) (t : ℝ) :
    rhs 0 0 0 0 0 x y z = (0, 0, 0) ∧
    (S t = S 0 ∧ Z t = Z 0 ∧ R t = R 0) := by
  constructor
  · simp [rhs]
  · have hS : ∀ u : ℝ, HasDerivAt S 0 u := fun u => by
      simpa [rhs] using (h u).1
    have hZ : ∀ u : ℝ, HasDerivAt Z 0 u := fun u => by
      simpa [rhs] using (h u).2.1
    have hR : ∀ u : ℝ, HasDerivAt R 0 u := fun u => by
      simpa [rhs] using (h u).2.2
    exact ⟨const_of_hasDerivAt_zero hS t, const_of_hasDerivAt_zero hZ t,
      const_of_hasDerivAt_zero hR t⟩

/-- C6 witness: the constant functions `S = 5`, `Z = 3`, `R = 2` solve the
degenerate system, and the theorem applied to them at `t = 1` gives back the
constancy. -/
theorem C6_no_interaction_witness :
    IsSolution 0 0 0 0 0 (fun _ => 5) (fun _ => 3) (fun _ => 2) ∧
    (rhs 0 0 0 0 0 0 0 0 = (0, 0, 0) ∧
      ((fun _ : ℝ => (5 : ℝ)) 1 = (fun _ : ℝ => (5 : ℝ)) 0 ∧
       (fun _ : ℝ => (3 : ℝ)) 1 = (fun _ : ℝ => (3 : ℝ)) 0 ∧
       (fun _ : ℝ => (2 : ℝ)) 1 = (fun _ : ℝ => (2 : ℝ)) 0)) := by
  have hsol : IsSolution 0 0 0 0 0 (fun _ => (5 : ℝ)) (fun _ => (3 : ℝ))
      (fun _ => (2 : ℝ)) := by
    intro t
    refine ⟨?_, ?_, ?_⟩
    · convert hasDerivAt_const t (5 : ℝ) using 1
      simp [rhs]
    · convert hasDerivAt_const t (3 : ℝ) using 1
      simp [rhs]
    · convert hasDerivAt_const t (2 : ℝ) using 1
      simp [rhs]
  exact ⟨hsol, C6_no_interaction_constant_trajectory _ _ _ 0 0 0 hsol 1⟩

/-- No exact solution of the system with the source's rate constants and
`P = 0` that starts from `S(0) = 1000` can keep `Z` identically `0`: if `Z`
were constantly `0`, its derivative `G * R` would force `R` to vanish, whose
derivative `d * S` would then force `S` to vanish, contradicting
`S(0) = 1000`. -/
lemma no_solution_keeps_Z_zero (S Z R : ℝ → ℝ)
    (hsol : IsSolution (Zombie_apocalypse.d : ℝ) (Zombie_apocalypse.B : ℝ)
      (Zombie_apocalypse.G : ℝ) (Zombie_apocalypse.A : ℝ) 0 S Z R)
    (hS0 : S 0 = 1000) (hZ : ∀ t : ℝ, Z t = 0) : False := by
  have hGne : ((Zombie_apocalypse.G : ℚ) : ℝ) ≠ 0 := by
    norm_num [Zombie_apocalypse.G]
  have hdne : ((Zombie_apocalypse.d : ℚ) : ℝ) ≠ 0 := by
    norm_num [Zombie_apocalypse.d]
  have hZfun : Z = fun _ => (0 : ℝ) := funext hZ
  have hZder : ∀ t : ℝ, HasDerivAt Z 0 t := fun t => by
    rw [hZfun]; exact hasDerivAt_const t 0
  have hR : ∀ t : ℝ, R t = 0 := by
    intro t
    have huniq := (hsol t).2.1.unique (hZder t)
    simp only [rhs, hZ t, mul_zero, zero_add, sub_zero] at huniq
    exact (mul_eq_zero.mp huniq).resolve_left hGne
  have hRfun : R = fun _ => (0 : ℝ) := funext hR
  have hRder : ∀ t : ℝ, HasDerivAt R 0 t := fun t => by
    rw [hRfun]; exact hasDerivAt_const t 0
  have hS : ∀ t : ℝ, S t = 0 := by
    intro t
    have huniq := (hsol t).2.2.unique (hRder t)
    simp only [rhs, hZ t, hR t, mul_zero, add_zero, sub_zero] at huniq
    exact (mul_eq_zero.mp huniq).resolve_left hdne
  have h0 := hS 0
  rw [hS0] at h0
  norm_num at h0

/-- C7 counterexample: the claim that in scenario 1 (`S0 = 1000`, `Z0 = 0`,
`R0 = 0`, `P = 0`) the zombie population remains at `0` for all time is
false — no exact solution of the system with these initial conditions keeps
`Z` identically `0`. -/
theorem C7_counterexample_Z_leaves_zero :
    ¬ ∃ S Z R : ℝ → ℝ,
      IsSolution (Zombie_apocalypse.d : ℝ) (Zombie_apocalypse.B : ℝ)
        (Zombie_apocalypse.G : ℝ) (Zombie_apocalypse.A : ℝ) 0 S Z R ∧
      S 0 = 1000 ∧ Z 0 = 0 ∧ R 0 = 0 ∧ ∀ t : ℝ, Z t = 0 := by
  rintro ⟨S, Z, R, hsol, hS0, -, -, hZ⟩
  exact no_solution_keeps_Z_zero S Z R hsol hS0 hZ

/-- C7 (amended): in scenario 1 the initial state is `(1000, 0, 0)` with
`P = 0`; the derivative there is `(-7.7, 0, 7.7)`, so the Z-component of the
derivative at `t = 0` is `0` and `S` decays at rate `d * S0 = 7.7`; but the
zombie population does not remain exactly `0` for all time: deaths feed `R`
and the resurrection term `G * R` then makes `Z` grow, so no exact solution
keeps `Z` identically `0`. -/
theorem C7_scenario1_Z_initially_stationary_but_leaves_zero :
    scenario_1.y0 = [1000, 0, 0] ∧ scenario_1.P = 0 ∧
    (scenario_1.diff_eq_solver (1000, 0, 0) 0).1 =
      [-(Zombie_apocalypse.d * 1000), 0, Zombie_apocalypse.d * 1000] ∧
    Zombie_apocalypse.d * 1000 = 7.7 ∧
    ¬ ∃ S Z R : ℝ → ℝ,
      IsSolution (Zombie_apocalypse.d : ℝ) (Zombie_apocalypse.B : ℝ)
        (Zombie_apocalypse.G : ℝ) (Zombie_apocalypse.A : ℝ) 0 S Z R ∧
      S 0 = 1000 ∧ Z 0 = 0 ∧ R 0 = 0 ∧ ∀ t : ℝ, Z t = 0 := by
  refine ⟨rfl, rfl, ?_, ?_, ?_⟩
  · show [(0 : ℚ) - Zombie_apocalypse.B * 1000 * 0 - Zombie_apocalypse.d * 1000,
      Zombie_apocalypse.B * 1000 * 0 + Zombie_apocalypse.G * 0
        - Zombie_apocalypse.A * 1000 * 0,
      Zombie_apocalypse.d * 1000 + Zombie_apocalypse.A * 1000 * 0
        - Zombie_apocalypse.G * 0] =
      [-(Zombie_apocalypse.d * 1000), 0, Zombie_apocalypse.d * 1000]
    norm_num
  · norm_num [Zombie_apocalypse.d]
  · rintro ⟨S, Z, R, hsol, hS0, -, -, hZ⟩
    exact no_solution_keeps_Z_zero S Z R hsol hS0 hZ

/-- C8: for a scenario constructed with `nr_sim_days = 0` the timeline is the
single point `t = 0` repeated 1000 times, and the sampled trajectory of any
integrated solution starting at the initial state `(S0, Z0, R0)` equals that
initial state at every sample. -/
theorem C8_zero_horizon_degenerate (title : String) (s0 zc rc p : Option ℚ) :
    (Zombie_apocalypse.init title s0 zc rc p (some 0)).timeline =
      List.replicate 1000 0 ∧
    ∀ y : ℝ → ℝ × ℝ × ℝ,
      y 0 = (((Zombie_apocalypse.init title s0 zc rc p (some 0)).S0 : ℝ),
             ((Zombie_apocalypse.init title s0 zc rc p (some 0)).Z0 : ℝ),
             ((Zombie_apocalypse.init title s0 zc rc p (some 0)).R0 : ℝ)) →
      ∀ v ∈ sample y (Zombie_apocalypse.init title s0 zc rc p (some 0)).timeline,
        v = (((Zombie_apocalypse.init title s0 zc rc p (some 0)).S0 : ℝ),
             ((Zombie_apocalypse.init title s0 zc rc p (some 0)).Z0 : ℝ),
             ((Zombie_apocalypse.init title s0 zc rc p (some 0)).R0 : ℝ)) := by
  have htl : (Zombie_apocalypse.init title s0 zc rc p (some 0)).timeline =
      List.replicate 1000 0 := by
    rw [init_timeline]
    simp [Zombie_apocalypse.linspace]
  refine ⟨htl, ?_⟩
  intro y hy v hv
  rw [sample, htl] at hv
  obtain ⟨t, ht, rfl⟩ := List.mem_map.mp hv
  have ht0 : t = 0 := List.eq_of_mem_replicate ht
  rw [ht0]
  rw [show ((0 : ℚ) : ℝ) = 0 from Rat.cast_zero]
  exact hy

/-- C8 witness: for the concrete scenario `init "w"` with `nr_sim_days = 0`
and the constant function at the initial state `(1000, 0, 0)`, every sample
of the trajectory is the initial state. -/
theorem C8_zero_horizon_witness :
    ((fun _ : ℝ => ((1000 : ℝ), (0 : ℝ), (0 : ℝ))) 0 =
      (((Zombie_apocalypse.init "w" none none none none (some 0)).S0 : ℝ),
       ((Zombie_apocalypse.init "w" none none none none (some 0)).Z0 : ℝ),
       ((Zombie_apocalypse.init "w" none none none none (some 0)).R0 : ℝ))) ∧
    ∀ v ∈ sample (fun _ : ℝ => ((1000 : ℝ), (0 : ℝ), (0 : ℝ)))
        (Zombie_apocalypse.init "w" none none none none (some 0)).timeline,
      v = (((Zombie_apocalypse.init "w" none none none none (some 0)).S0 : ℝ),
       ((Zombie_apocalypse.init "w" none none none none (some 0)).Z0 : ℝ),
       ((Zombie_apocalypse.init "w" none none none none (some 0)).R0 : ℝ)) := by
  have hy : (fun _ : ℝ => ((1000 : ℝ), (0 : ℝ), (0 : ℝ))) 0 =
      (((Zombie_apocalypse.init "w" none none none none (some 0)).S0 : ℝ),
       ((Zombie_apocalypse.init "w" none none none none (some 0)).Z0 : ℝ),
       ((Zombie_apocalypse.init "w" none none none none (some 0)).R0 : ℝ)) := by
    show ((1000 : ℝ), (0 : ℝ), (0 : ℝ)) =
      (((1000 : ℚ) : ℝ), ((0 : ℚ) : ℝ), ((0 : ℚ) : ℝ))
    norm_num
  exact ⟨hy, (C8_zero_horizon_degenerate "w" none none none none).2 _ hy⟩
